import Mathlib

/-!
Shallow embedding of the crisis detection and escalation pipeline of the
mental-health repository (src/utils/crisis_detection.py and
src/utils/gemini_client.py).

Python strings are modelled as Lean `String` (inputs of interest are ASCII,
so `str.lower` is modelled as an ASCII lowercase map and the regex word
class as ASCII alphanumerics plus underscore).  Python dict values that may
be absent or of the wrong type are modelled by the `JVal` type, and Python
exceptions by `Except PyExn`.
-/

/-- Python exceptions that the embedded code can raise. -/
inductive PyExn where
  | keyError
  | attributeError
  | exception
  | storeWriteFailure
deriving DecidableEq, Repr

/-- The value found under the key risk_level of the AI analysis dict: a
string, some non-string JSON value, or the key is absent. -/
inductive JVal where
  | str (s : String)
  | nonStr
  | missing
deriving DecidableEq, Repr

/-- ASCII model of Python str.lower on one character. -/
def lowerChar (c : Char) : Char :=
  if ('A' ≤ c && c ≤ 'Z') then
    Char.ofNat (c.toNat + 32)
  else
    c

/-- ASCII model of Python str.lower. -/
def lowerStr (s : String) : String :=
  String.mk (s.data.map lowerChar)

/-- ASCII model of the regex word class backslash-w: alphanumerics and the
underscore. -/
def isWordChar (c : Char) : Bool :=
  c.isAlphanum || c == '_'

/-- Whether the character at position i of the text (as a list) is a word
character; out-of-range positions count as non-word. -/
def wordCharAt (text : List Char) (i : Nat) : Bool :=
  match text.get? i with
  | some c => isWordChar c
  | none => false

/-- The regex word-boundary assertion at position p of the text: exactly
one of the character before p and the character at p is a word character
(string edges count as non-word). -/
def wordBoundaryAt (text : List Char) (p : Nat) : Bool :=
  (decide (0 < p) && wordCharAt text (p - 1)) != wordCharAt text p

/-- The escaped keyword, wrapped in word-boundary assertions, matches the
text at position i. -/
def matchesAt (kw text : List Char) (i : Nat) : Bool :=
  ((text.drop i).take kw.length == kw)
    && wordBoundaryAt text i
    && wordBoundaryAt text (i + kw.length)

/-- Model of re.search with the pattern built at line 52 of
crisis_detection.py: word boundary, escaped keyword, word boundary.
True iff some position of the text matches. -/
def wordSearch (kw text : String) : Bool :=
  (List.range (text.data.length + 1)).any (fun i => matchesAt kw.data text.data i)

/-- All positions of the text at which the bounded keyword matches (used to
count occurrences; re.search only reports whether there is at least one). -/
def matchPositions (kw text : String) : List Nat :=
  (List.range (text.data.length + 1)).filter (fun i => matchesAt kw.data text.data i)

/-- severity_weights.get(category, 1): association-list lookup with the
default 1 used at line 54 of crisis_detection.py. -/
def weightOf (weights : List (String × Nat)) (category : String) : Nat :=
  match weights with
  | [] => 1
  | (c, w) :: rest => if c == category then w else weightOf rest category

/-- The score thresholds of lines 56-64 of crisis_detection.py. -/
def score_to_risk_level (total_score : Nat) : String :=
  if total_score ≥ 10 then ("critical")
  else if total_score ≥ 6 then ("high")
  else if total_score ≥ 3 then ("moderate")
  else ("low")

/-- The dict returned by CrisisDetector._keyword_based_detection. -/
structure KeywordRisk where
  risk_level : String
  score : Nat
  detected_keywords : List (String × String)
  method : String
deriving DecidableEq, Repr

/-- CrisisDetector._keyword_based_detection (lines 44-71 of
crisis_detection.py): lower the text, scan the lexicon in order, append one
(keyword, category) pair and add the category weight for every keyword that
re.search finds in the lowered text, then map the score through the
thresholds.  The lexicon and weights (data/crisis_keywords.py, not part of
the embedded sources) are parameters. -/
def keyword_based_detection (lexicon : List (String × List String))
    (weights : List (String × Nat)) (text : String) : KeywordRisk :=
  let text_lower := lowerStr text
  let scan := lexicon.foldl (fun acc p =>
    p.2.foldl (fun acc kw =>
      if wordSearch kw text_lower then
        (acc.1 ++ [(kw, p.1)], acc.2 + weightOf weights p.1)
      else acc) acc)
    (([], 0) : List (String × String) × Nat)
  { risk_level := score_to_risk_level scan.2
    score := scan.2
    detected_keywords := scan.1
    method := ("keyword_analysis") }

/-- The dict produced for the AI analysis (the JSON reply in gemini_client):
risk_level may be absent or a non-string, the other two fields as in the
oracle instruction. -/
structure AiAnalysis where
  risk_level : JVal
  keywords_detected : List String
  analysis : String
deriving DecidableEq, Repr

/-- The risk_levels list at line 77 of crisis_detection.py. -/
def risk_levels : List String :=
  [("low"), ("moderate"), ("high"), ("critical")]

/-- Python list.index returning an Option instead of raising ValueError. -/
def listIndex (xs : List String) (x : String) : Option Nat :=
  match xs with
  | [] => none
  | y :: ys => if y == x then some 0 else (listIndex ys x).map Nat.succ

/-- risk_levels.index(level) with the ValueError handler of lines 80-88:
an unrecognized level defaults to the index of low, which is 0. -/
def index_or_low (level : String) : Nat :=
  (listIndex risk_levels level).getD 0

/-- The dict returned by CrisisDetector._combine_risk_assessments. -/
structure CombinedRisk where
  final_risk_level : String
  keyword_analysis : KeywordRisk
  ai_analysis : AiAnalysis
  requires_intervention : Bool
  immediate_crisis : Bool
deriving DecidableEq, Repr

/-- CrisisDetector._combine_risk_assessments (lines 73-103 of
crisis_detection.py).  Accessing risk_level of the AI dict raises KeyError
when the key is absent and calling lower on a non-string raises
AttributeError; neither is caught (the handlers catch only ValueError), so
those cases are errors.  Otherwise: index both levels with the unrecognized
ones defaulting to low, take the level of the larger index, then force
critical if either side reports critical. -/
def combine_risk_assessments (keyword_risk : KeywordRisk)
    (ai_analysis : AiAnalysis) : Except PyExn CombinedRisk :=
  match ai_analysis.risk_level with
  | JVal.missing => Except.error PyExn.keyError
  | JVal.nonStr => Except.error PyExn.attributeError
  | JVal.str s =>
    let keyword_level_idx := index_or_low keyword_risk.risk_level
    let ai_level_idx := index_or_low (lowerStr s)
    let base_level := risk_levels.getD (max keyword_level_idx ai_level_idx) ("low")
    let combined_level :=
      if keyword_risk.risk_level == ("critical") || lowerStr s == ("critical") then ("critical")
      else base_level
    Except.ok
      { final_risk_level := combined_level
        keyword_analysis := keyword_risk
        ai_analysis := ai_analysis
        requires_intervention := [("high"), ("critical")].contains combined_level
        immediate_crisis := combined_level == ("critical") }

/-- What the external language-model oracle call can come back with, as
observed by GeminiClient.analyze_text_for_crisis: the call raises (client
not initialized, line 50, or the API errors), json.loads raises
JSONDecodeError on the response text, or json.loads yields a dict. -/
inductive OracleOutcome where
  | unreachable
  | malformedJson
  | parsed (d : AiAnalysis)
deriving DecidableEq, Repr

namespace GeminiClient

/-- GeminiClient.analyze_text_for_crisis (lines 133-147 of
gemini_client.py), as a function of the oracle outcome for the given text.
A raising _generate_content is not caught, so the exception propagates; a
JSON decode failure is caught and replaced by the literal fallback dict of
line 147; a successfully parsed dict is returned as-is, with no validation
of its risk_level label. -/
def analyze_text_for_crisis (oracle : OracleOutcome) : Except PyExn AiAnalysis :=
  match oracle with
  | OracleOutcome.unreachable => Except.error PyExn.exception
  | OracleOutcome.malformedJson =>
    Except.ok
      { risk_level := JVal.str ("MODERATE")
        keywords_detected := [("system_error")]
        analysis := ("Could not parse AI crisis response.") }
  | OracleOutcome.parsed d => Except.ok d

end GeminiClient

/-- The two resource bundles the intervention controller can render
(st.error block of lines 117-128 and st.warning block of lines 135-152). -/
inductive Display where
  | immediate_crisis_resources
  | support_resources
deriving DecidableEq, Repr

/-- Observable side effects of the intervention controller: rendering a
resource bundle, or appending a crisis event record of the given kind to
the session store. -/
inductive Effect where
  | display (d : Display)
  | logEvent (kind : String)
deriving DecidableEq, Repr

/-- CrisisDetector._show_immediate_crisis_resources (lines 115-131):
render the immediate-crisis bundle, then log one immediate record. -/
def show_immediate_crisis_resources : List Effect :=
  [Effect.display Display.immediate_crisis_resources, Effect.logEvent ("immediate")]

/-- CrisisDetector._show_support_resources (lines 133-155): render the
support bundle, then log one support record. -/
def show_support_resources : List Effect :=
  [Effect.display Display.support_resources, Effect.logEvent ("support")]

/-- CrisisDetector.trigger_crisis_intervention (lines 105-113): dispatch on
the verdict flags and return requires_intervention.  The result pairs the
emitted effects with the returned boolean. -/
def trigger_crisis_intervention (risk_assessment : CombinedRisk) : List Effect × Bool :=
  let effects :=
    if risk_assessment.immediate_crisis then show_immediate_crisis_resources
    else if risk_assessment.requires_intervention then show_support_resources
    else []
  (effects, risk_assessment.requires_intervention)

/-- CrisisDetector.trigger_crisis_intervention with a session store whose
append (data_manager.log_crisis_event, called bare at lines 131 and 155
with no surrounding handler) may fail.  When the store append raises, the
exception propagates out of the controller: the display has already been
rendered, but no boolean is returned. -/
def trigger_crisis_intervention_store (store_ok : Bool)
    (risk_assessment : CombinedRisk) : Except PyExn (List Effect × Bool) :=
  if risk_assessment.immediate_crisis then
    if store_ok then
      Except.ok (show_immediate_crisis_resources, risk_assessment.requires_intervention)
    else Except.error PyExn.storeWriteFailure
  else if risk_assessment.requires_intervention then
    if store_ok then
      Except.ok (show_support_resources, risk_assessment.requires_intervention)
    else Except.error PyExn.storeWriteFailure
  else Except.ok ([], risk_assessment.requires_intervention)

/-- The (keyword, category) pairs of the lexicon, in scan order, whose
keyword has a bounded match in the lowered text.  Reformulation of the
scan of _keyword_based_detection used to characterize it: one entry per
matching lexicon pair, however many times the keyword occurs. -/
def matched_pairs (lexicon : List (String × List String)) (text_lower : String) :
    List (String × String) :=
  lexicon.foldr (fun p rest =>
    ((p.2.filter (fun kw => wordSearch kw text_lower)).map (fun kw => (kw, p.1))) ++ rest) []

/-- Total weight of a list of (keyword, category) pairs: the category
weight, summed once per pair. -/
def pairsScore (weights : List (String × Nat)) (pairs : List (String × String)) : Nat :=
  (pairs.map (fun pr => weightOf weights pr.2)).sum

/-- The fused level as computed at lines 90-95 of crisis_detection.py:
the level at the larger of the two defaulted indices, overridden to
critical when either side reports critical. -/
def fused_level (keyword_level ai_level_lower : String) : String :=
  let base_level := risk_levels.getD (max (index_or_low keyword_level) (index_or_low ai_level_lower)) ("low")
  if keyword_level == ("critical") || ai_level_lower == ("critical") then ("critical")
  else base_level

lemma combine_eq_of_str (kr : KeywordRisk) (ai : AiAnalysis) (s : String)
    (h : ai.risk_level = JVal.str s) :
    combine_risk_assessments kr ai = Except.ok
      { final_risk_level := fused_level kr.risk_level (lowerStr s)
        keyword_analysis := kr
        ai_analysis := ai
        requires_intervention := [("high"), ("critical")].contains (fused_level kr.risk_level (lowerStr s))
        immediate_crisis := fused_level kr.risk_level (lowerStr s) == ("critical") } := by
  obtain ⟨rl, kd, an⟩ := ai
  cases h
  rfl

lemma listIndex_eq_none (xs : List String) (x : String) (h : x ∉ xs) :
    listIndex xs x = none := by
  induction xs with
  | nil => rfl
  | cons y ys ih =>
    have hy : (y == x) = false := by
      simp only [beq_eq_false_iff_ne]
      intro he
      exact h (by rw [← he]; exact List.mem_cons_self y ys)
    simp [listIndex, hy, ih (fun hm => h (List.mem_cons_of_mem y hm))]

/-- C1: if either the keyword signal or the (lowered) model signal reports
critical, the fused final risk level is critical, whatever the other side
holds. -/
theorem critical_override (kr : KeywordRisk) (ai : AiAnalysis) (s : String)
    (hs : ai.risk_level = JVal.str s)
    (h : kr.risk_level = ("critical") ∨ lowerStr s = ("critical")) :
    ∃ v, combine_risk_assessments kr ai = Except.ok v ∧ v.final_risk_level = ("critical") := by
  refine ⟨_, combine_eq_of_str kr ai s hs, ?_⟩
  rcases h with h | h <;> simp [fused_level, h]

/-- Witness for critical_override at a concrete pair of signals. -/
theorem critical_override_witness :
    ∃ v, combine_risk_assessments
        { risk_level := ("critical"), score := 10, detected_keywords := [], method := ("keyword_analysis") }
        { risk_level := JVal.str ("LOW"), keywords_detected := [], analysis := ("x") }
      = Except.ok v ∧ v.final_risk_level = ("critical") :=
  critical_override _ _ ("LOW") rfl (Or.inl rfl)

/-- C2: when the keyword level is one of the four recognized lowercase
names and the lowered model label is too, the fused final level is the one
at the larger of the two ranks, that is the maximum under the order
low < moderate < high < critical. -/
theorem fusion_max_rule (kr : KeywordRisk) (ai : AiAnalysis) (s : String)
    (hs : ai.risk_level = JVal.str s)
    (hk : kr.risk_level ∈ risk_levels) (ha : lowerStr s ∈ risk_levels) :
    ∃ v, combine_risk_assessments kr ai = Except.ok v ∧
      v.final_risk_level =
        risk_levels.getD (max (index_or_low kr.risk_level) (index_or_low (lowerStr s))) ("low") := by
  refine ⟨_, combine_eq_of_str kr ai s hs, ?_⟩
  show fused_level kr.risk_level (lowerStr s) =
    risk_levels.getD (max (index_or_low kr.risk_level) (index_or_low (lowerStr s))) ("low")
  simp only [risk_levels, List.mem_cons, List.not_mem_nil, or_false] at hk ha
  rcases hk with h1 | h1 | h1 | h1 <;> rcases ha with h2 | h2 | h2 | h2 <;>
    rw [h1, h2] <;> decide

/-- Witness for fusion_max_rule at a concrete pair of signals. -/
theorem fusion_max_rule_witness :
    ∃ v, combine_risk_assessments
        { risk_level := ("moderate"), score := 3, detected_keywords := [], method := ("keyword_analysis") }
        { risk_level := JVal.str ("High"), keywords_detected := [], analysis := ("x") }
      = Except.ok v ∧
      v.final_risk_level =
        risk_levels.getD (max (index_or_low ("moderate")) (index_or_low (lowerStr ("High")))) ("low") :=
  fusion_max_rule _ _ ("High") rfl (by decide) (by decide)

/-- C4: a model label whose lowered form is not one of the four recognized
names, such as the SEVERE the oracle instruction prescribes, is indexed as
low and does not fire the critical override, so with a keyword level below
critical the fused level is the keyword level alone. -/
theorem unrecognized_label_treated_low (kr : KeywordRisk) (ai : AiAnalysis) (s : String)
    (hs : ai.risk_level = JVal.str s)
    (hnr : lowerStr s ∉ risk_levels)
    (hk : kr.risk_level = ("low") ∨ kr.risk_level = ("moderate") ∨ kr.risk_level = ("high")) :
    ∃ v, combine_risk_assessments kr ai = Except.ok v ∧ v.final_risk_level = kr.risk_level := by
  refine ⟨_, combine_eq_of_str kr ai s hs, ?_⟩
  show fused_level kr.risk_level (lowerStr s) = kr.risk_level
  have hidx : index_or_low (lowerStr s) = 0 := by
    simp [index_or_low, listIndex_eq_none _ _ hnr]
  have hne : (lowerStr s == ("critical")) = false := by
    simp only [beq_eq_false_iff_ne]
    intro he
    rw [he] at hnr
    exact hnr (by decide)
  rcases hk with h1 | h1 | h1 <;> rw [h1] <;> simp [fused_level, hne, hidx] <;> decide

/-- Witness for unrecognized_label_treated_low with the oracle-prescribed
label SEVERE against a high keyword signal. -/
theorem unrecognized_label_treated_low_witness :
    ∃ v, combine_risk_assessments
        { risk_level := ("high"), score := 6, detected_keywords := [], method := ("keyword_analysis") }
        { risk_level := JVal.str ("SEVERE"), keywords_detected := [], analysis := ("x") }
      = Except.ok v ∧ v.final_risk_level = ("high") :=
  unrecognized_label_treated_low _ _ ("SEVERE") rfl (by decide) (Or.inr (Or.inr rfl))

/-- C5: the score thresholds partition the natural numbers: at least 10 is
critical, 6 to 9 is high, 3 to 5 is moderate, below 3 is low, and every
score gets exactly one of the four recognized levels. -/
theorem score_threshold_partition (s : Nat) :
    (10 ≤ s → score_to_risk_level s = ("critical")) ∧
    (6 ≤ s ∧ s < 10 → score_to_risk_level s = ("high")) ∧
    (3 ≤ s ∧ s < 6 → score_to_risk_level s = ("moderate")) ∧
    (s < 3 → score_to_risk_level s = ("low")) ∧
    score_to_risk_level s ∈ risk_levels := by
  refine ⟨fun h => ?_, fun h => ?_, fun h => ?_, fun h => ?_, ?_⟩ <;>
    simp only [score_to_risk_level, risk_levels] <;>
    split_ifs <;> first | rfl | omega | simp

/-- Witness for score_threshold_partition, one score per band. -/
theorem score_threshold_partition_witness :
    score_to_risk_level 11 = ("critical") ∧ score_to_risk_level 7 = ("high") ∧
    score_to_risk_level 4 = ("moderate") ∧ score_to_risk_level 2 = ("low") :=
  ⟨(score_threshold_partition 11).1 (by decide),
   (score_threshold_partition 7).2.1 (by decide),
   (score_threshold_partition 4).2.2.1 (by decide),
   (score_threshold_partition 2).2.2.2.1 (by decide)⟩

/-- C9 counterexample: fusion is not total — a model signal whose dict has
no risk_level key makes the fusion step raise KeyError instead of
returning a verdict. -/
theorem fusion_raises_on_missing_label :
    combine_risk_assessments
        { risk_level := ("low"), score := 0, detected_keywords := [], method := ("keyword_analysis") }
        { risk_level := JVal.missing, keywords_detected := [], analysis := ("x") }
      = Except.error PyExn.keyError := rfl

/-- C9 amended: fusion succeeds exactly when the risk label of the model signal
field is present and is a string; a missing key raises KeyError and a
non-string value raises AttributeError. -/
theorem fusion_total_iff_str_label (kr : KeywordRisk) (ai : AiAnalysis) :
    (∃ v, combine_risk_assessments kr ai = Except.ok v) ↔ (∃ s, ai.risk_level = JVal.str s) := by
  obtain ⟨rl, kd, an⟩ := ai
  cases rl with
  | str s => exact ⟨fun _ => ⟨s, rfl⟩, fun _ => ⟨_, rfl⟩⟩
  | nonStr =>
    constructor
    · rintro ⟨v, hv⟩; simp [combine_risk_assessments] at hv
    · rintro ⟨s, hs⟩; cases hs
  | missing =>
    constructor
    · rintro ⟨v, hv⟩; simp [combine_risk_assessments] at hv
    · rintro ⟨s, hs⟩; cases hs

/-- Witness for fusion_total_iff_str_label at a concrete well-formed pair. -/
theorem fusion_total_iff_str_label_witness :
    ∃ v, combine_risk_assessments
        { risk_level := ("low"), score := 0, detected_keywords := [], method := ("keyword_analysis") }
        { risk_level := JVal.str ("LOW"), keywords_detected := [], analysis := ("x") }
      = Except.ok v :=
  (fusion_total_iff_str_label _ _).mpr ⟨("LOW"), rfl⟩

/-- C10: every verdict the fusion step returns has requires_intervention
true exactly when the final level is high or critical, and
immediate_crisis true exactly when the final level is critical. -/
theorem derived_flags (kr : KeywordRisk) (ai : AiAnalysis) (v : CombinedRisk)
    (h : combine_risk_assessments kr ai = Except.ok v) :
    (v.requires_intervention = true ↔
      (v.final_risk_level = ("high") ∨ v.final_risk_level = ("critical"))) ∧
    (v.immediate_crisis = true ↔ v.final_risk_level = ("critical")) := by
  obtain ⟨rl, kd, an⟩ := ai
  cases rl with
  | missing => simp [combine_risk_assessments] at h
  | nonStr => simp [combine_risk_assessments] at h
  | str s =>
    rw [combine_eq_of_str _ _ s rfl] at h
    injection h with h
    subst h
    constructor
    · simp [List.contains]
    · simp

/-- Witness for derived_flags at a concrete fused verdict. -/
theorem derived_flags_witness :
    ({ final_risk_level := ("high")
       keyword_analysis := { risk_level := ("high"), score := 6, detected_keywords := [], method := ("keyword_analysis") }
       ai_analysis := { risk_level := JVal.str ("LOW"), keywords_detected := [], analysis := ("x") }
       requires_intervention := true
       immediate_crisis := false } : CombinedRisk).requires_intervention = true ↔
      (({ final_risk_level := ("high")
          keyword_analysis := { risk_level := ("high"), score := 6, detected_keywords := [], method := ("keyword_analysis") }
          ai_analysis := { risk_level := JVal.str ("LOW"), keywords_detected := [], analysis := ("x") }
          requires_intervention := true
          immediate_crisis := false } : CombinedRisk).final_risk_level = ("high") ∨
        ({ final_risk_level := ("high")
           keyword_analysis := { risk_level := ("high"), score := 6, detected_keywords := [], method := ("keyword_analysis") }
           ai_analysis := { risk_level := JVal.str ("LOW"), keywords_detected := [], analysis := ("x") }
           requires_intervention := true
           immediate_crisis := false } : CombinedRisk).final_risk_level = ("critical")) :=
  (derived_flags
    { risk_level := ("high"), score := 6, detected_keywords := [], method := ("keyword_analysis") }
    { risk_level := JVal.str ("LOW"), keywords_detected := [], analysis := ("x") }
    _ (by rfl)).1

/-- C3 counterexample: the classifier does raise when the oracle call
raises (the client-not-initialized exception of line 50 is not caught at
lines 143-147), and on a JSON decode failure it returns the MODERATE
fallback dict with the nonempty keyword list system_error, not a low
signal with empty keywords. -/
theorem classifier_fallback_cex :
    GeminiClient.analyze_text_for_crisis OracleOutcome.unreachable = Except.error PyExn.exception ∧
    GeminiClient.analyze_text_for_crisis OracleOutcome.malformedJson =
      Except.ok { risk_level := JVal.str ("MODERATE"), keywords_detected := [("system_error")]
                  analysis := ("Could not parse AI crisis response.") } :=
  ⟨rfl, rfl⟩

/-- C3 amended: an unreachable oracle makes the classifier raise to its
caller; a JSON decode failure yields the fallback dict with risk label
MODERATE, keyword list system_error and an analysis text stating the parse
failure; a dict the oracle returns is passed through with no validation of
its label; and the MODERATE fallback escalates a low keyword signal to a
fused level of moderate. -/
theorem classifier_failure_behavior :
    (GeminiClient.analyze_text_for_crisis OracleOutcome.unreachable = Except.error PyExn.exception) ∧
    (GeminiClient.analyze_text_for_crisis OracleOutcome.malformedJson =
      Except.ok { risk_level := JVal.str ("MODERATE"), keywords_detected := [("system_error")]
                  analysis := ("Could not parse AI crisis response.") }) ∧
    (∀ d, GeminiClient.analyze_text_for_crisis (OracleOutcome.parsed d) = Except.ok d) ∧
    (∀ kr : KeywordRisk, kr.risk_level = ("low") →
      ∃ v, combine_risk_assessments kr
          { risk_level := JVal.str ("MODERATE"), keywords_detected := [("system_error")]
            analysis := ("Could not parse AI crisis response.") }
        = Except.ok v ∧ v.final_risk_level = ("moderate")) := by
  refine ⟨rfl, rfl, fun d => rfl, fun kr h => ?_⟩
  refine ⟨_, combine_eq_of_str _ _ ("MODERATE") rfl, ?_⟩
  show fused_level kr.risk_level (lowerStr ("MODERATE")) = ("moderate")
  rw [h]
  decide

/-- Witness for classifier_failure_behavior: pass-through of a parsed dict
and the moderate escalation of a low keyword signal, at concrete values. -/
theorem classifier_failure_behavior_witness :
    GeminiClient.analyze_text_for_crisis
        (OracleOutcome.parsed { risk_level := JVal.str ("LOW"), keywords_detected := [], analysis := ("x") })
      = Except.ok { risk_level := JVal.str ("LOW"), keywords_detected := [], analysis := ("x") } ∧
    (∃ v, combine_risk_assessments
        { risk_level := ("low"), score := 0, detected_keywords := [], method := ("keyword_analysis") }
        { risk_level := JVal.str ("MODERATE"), keywords_detected := [("system_error")]
          analysis := ("Could not parse AI crisis response.") }
      = Except.ok v ∧ v.final_risk_level = ("moderate")) :=
  ⟨classifier_failure_behavior.2.2.1 _, classifier_failure_behavior.2.2.2 _ rfl⟩

/-- C6: for every verdict the fusion step produces, a critical final level
renders the immediate-crisis resources and logs exactly one immediate
record, a high final level renders the support resources and logs exactly
one support record, a moderate or low final level renders and logs
nothing, and the controller always returns requires_intervention. -/
theorem controller_mapping (kr : KeywordRisk) (ai : AiAnalysis) (v : CombinedRisk)
    (h : combine_risk_assessments kr ai = Except.ok v) :
    (v.final_risk_level = ("critical") →
      trigger_crisis_intervention v =
        ([Effect.display Display.immediate_crisis_resources, Effect.logEvent ("immediate")], true)) ∧
    (v.final_risk_level = ("high") →
      trigger_crisis_intervention v =
        ([Effect.display Display.support_resources, Effect.logEvent ("support")], true)) ∧
    (v.final_risk_level = ("moderate") ∨ v.final_risk_level = ("low") →
      trigger_crisis_intervention v = ([], false)) ∧
    (trigger_crisis_intervention v).2 = v.requires_intervention := by
  obtain ⟨rl, kd, an⟩ := ai
  cases rl with
  | missing => simp [combine_risk_assessments] at h
  | nonStr => simp [combine_risk_assessments] at h
  | str s =>
    rw [combine_eq_of_str _ _ s rfl] at h
    injection h with h
    subst h
    refine ⟨fun hF => ?_, fun hF => ?_, fun hF => ?_, rfl⟩
    · have hF2 : fused_level kr.risk_level (lowerStr s) = ("critical") := hF
      simp [trigger_crisis_intervention, show_immediate_crisis_resources, hF2]
    · have hF2 : fused_level kr.risk_level (lowerStr s) = ("high") := hF
      simp [trigger_crisis_intervention, show_support_resources, hF2]
    · rcases hF with hF | hF
      · have hF2 : fused_level kr.risk_level (lowerStr s) = ("moderate") := hF
        simp [trigger_crisis_intervention, hF2]
      · have hF2 : fused_level kr.risk_level (lowerStr s) = ("low") := hF
        simp [trigger_crisis_intervention, hF2]

/-- Witness for controller_mapping: a fused high verdict renders the
support resources, logs one support record and returns true. -/
theorem controller_mapping_witness :
    trigger_crisis_intervention
        { final_risk_level := ("high")
          keyword_analysis := { risk_level := ("high"), score := 6, detected_keywords := [], method := ("keyword_analysis") }
          ai_analysis := { risk_level := JVal.str ("LOW"), keywords_detected := [], analysis := ("x") }
          requires_intervention := true
          immediate_crisis := false }
      = ([Effect.display Display.support_resources, Effect.logEvent ("support")], true) :=
  (controller_mapping
    { risk_level := ("high"), score := 6, detected_keywords := [], method := ("keyword_analysis") }
    { risk_level := JVal.str ("LOW"), keywords_detected := [], analysis := ("x") }
    _ (by rfl)).2.1 (by rfl)

/-- C7 counterexample: on a genuine fused critical verdict, a failing
store append makes the intervention controller raise: the boolean is never
returned to the caller. -/
theorem store_failure_cex :
    trigger_crisis_intervention_store false
        { final_risk_level := ("critical")
          keyword_analysis := { risk_level := ("critical"), score := 10, detected_keywords := [], method := ("keyword_analysis") }
          ai_analysis := { risk_level := JVal.str ("LOW"), keywords_detected := [], analysis := ("x") }
          requires_intervention := true
          immediate_crisis := true }
      = Except.error PyExn.storeWriteFailure ∧
    combine_risk_assessments
        { risk_level := ("critical"), score := 10, detected_keywords := [], method := ("keyword_analysis") }
        { risk_level := JVal.str ("LOW"), keywords_detected := [], analysis := ("x") }
      = Except.ok
        { final_risk_level := ("critical")
          keyword_analysis := { risk_level := ("critical"), score := 10, detected_keywords := [], method := ("keyword_analysis") }
          ai_analysis := { risk_level := JVal.str ("LOW"), keywords_detected := [], analysis := ("x") }
          requires_intervention := true
          immediate_crisis := true } :=
  ⟨rfl, rfl⟩

/-- C7 amended: with a working store the controller behaves as without the
failure mode; when an intervention is triggered and the store append
fails, the exception propagates out of the controller instead of the
boolean; only a verdict that triggers nothing is immune to store failure. -/
theorem store_failure_propagates (v : CombinedRisk) :
    (trigger_crisis_intervention_store true v = Except.ok (trigger_crisis_intervention v)) ∧
    (v.immediate_crisis = true ∨ v.requires_intervention = true →
      trigger_crisis_intervention_store false v = Except.error PyExn.storeWriteFailure) ∧
    (v.immediate_crisis = false → v.requires_intervention = false →
      trigger_crisis_intervention_store false v = Except.ok ([], v.requires_intervention)) := by
  cases h1 : v.immediate_crisis <;> cases h2 : v.requires_intervention <;>
    simp [trigger_crisis_intervention_store, trigger_crisis_intervention, h1, h2]

/-- Witness for store_failure_propagates: a support-level verdict with a
failing store makes the controller raise. -/
theorem store_failure_propagates_witness :
    trigger_crisis_intervention_store false
        { final_risk_level := ("high")
          keyword_analysis := { risk_level := ("high"), score := 6, detected_keywords := [], method := ("keyword_analysis") }
          ai_analysis := { risk_level := JVal.str ("LOW"), keywords_detected := [], analysis := ("x") }
          requires_intervention := true
          immediate_crisis := false }
      = Except.error PyExn.storeWriteFailure :=
  (store_failure_propagates _).2.1 (Or.inr rfl)

lemma pairsScore_append (w : List (String × Nat)) (a b : List (String × String)) :
    pairsScore w (a ++ b) = pairsScore w a + pairsScore w b := by
  simp [pairsScore]

lemma scan_category (tl : String) (w : List (String × Nat)) (cat : String)
    (kws : List String) (acc : List (String × String) × Nat) :
    kws.foldl (fun acc kw =>
        if wordSearch kw tl then (acc.1 ++ [(kw, cat)], acc.2 + weightOf w cat) else acc) acc
      = (acc.1 ++ (kws.filter (fun kw => wordSearch kw tl)).map (fun kw => (kw, cat)),
         acc.2 + pairsScore w ((kws.filter (fun kw => wordSearch kw tl)).map (fun kw => (kw, cat)))) := by
  induction kws generalizing acc with
  | nil => simp [pairsScore]
  | cons kw kws ih =>
    cases hkw : wordSearch kw tl with
    | true =>
      simp only [List.foldl_cons, hkw, if_true, List.filter_cons, List.map_cons]
      rw [ih]
      simp [pairsScore, List.append_assoc, Nat.add_assoc]
    | false =>
      simp only [List.foldl_cons, hkw, List.filter_cons]
      rw [ih]
      simp

lemma scan_lexicon (lexicon : List (String × List String)) (w : List (String × Nat))
    (tl : String) (acc : List (String × String) × Nat) :
    lexicon.foldl (fun acc p =>
        p.2.foldl (fun acc kw =>
          if wordSearch kw tl then (acc.1 ++ [(kw, p.1)], acc.2 + weightOf w p.1) else acc) acc) acc
      = (acc.1 ++ matched_pairs lexicon tl, acc.2 + pairsScore w (matched_pairs lexicon tl)) := by
  induction lexicon generalizing acc with
  | nil => simp [matched_pairs, pairsScore]
  | cons p rest ih =>
    simp only [List.foldl_cons]
    rw [scan_category, ih]
    simp [matched_pairs, pairsScore_append, List.append_assoc, Nat.add_assoc]

/-- C8 amended: the keyword scan appends exactly one (keyword, category)
pair, in scan order, for every lexicon pair whose keyword has a bounded
match somewhere in the lowered text — once per matching keyword, however
many times it occurs — and adds the weight of that category once per such pair;
the score feeds the thresholds and the whole signal depends on the input
text only through its lowered form, so matching is case-insensitive. -/
theorem keyword_scan_characterization (lexicon : List (String × List String))
    (weights : List (String × Nat)) (text : String) :
    (keyword_based_detection lexicon weights text).detected_keywords
        = matched_pairs lexicon (lowerStr text) ∧
    (keyword_based_detection lexicon weights text).score
        = pairsScore weights (matched_pairs lexicon (lowerStr text)) ∧
    (keyword_based_detection lexicon weights text).risk_level
        = score_to_risk_level (pairsScore weights (matched_pairs lexicon (lowerStr text))) ∧
    (∀ t2, lowerStr text = lowerStr t2 →
      keyword_based_detection lexicon weights text = keyword_based_detection lexicon weights t2) := by
  have hscan := scan_lexicon lexicon weights (lowerStr text) ([], 0)
  refine ⟨?_, ?_, ?_, fun t2 h => ?_⟩
  · simp [keyword_based_detection, hscan]
  · simp [keyword_based_detection, hscan]
  · simp [keyword_based_detection, hscan]
  · simp only [keyword_based_detection]
    rw [h]

/-- Witness for keyword_scan_characterization: two casings of the same
text yield the same keyword signal. -/
theorem keyword_scan_characterization_witness :
    keyword_based_detection [(("suicidal_ideation"), [("kill myself")])]
        [(("suicidal_ideation"), 10)] ("KILL Myself")
      = keyword_based_detection [(("suicidal_ideation"), [("kill myself")])]
        [(("suicidal_ideation"), 10)] ("kill MYSELF") :=
  (keyword_scan_characterization [(("suicidal_ideation"), [("kill myself")])]
    [(("suicidal_ideation"), 10)] ("KILL Myself")).2.2.2 ("kill MYSELF") (by decide)

/-- C8 counterexample: in a text where the keyword has two bounded
occurrences, the scan still appends a single (keyword, category) pair and
adds the weight once — score 10, not 20 — because re.search only reports
whether the keyword matches at all. -/
theorem keyword_per_occurrence_cex :
    (matchPositions ("kill myself") (lowerStr ("kill myself and kill myself"))).length = 2 ∧
    (keyword_based_detection [(("suicidal_ideation"), [("kill myself")])]
        [(("suicidal_ideation"), 10)] ("kill myself and kill myself")).detected_keywords
      = [(("kill myself"), ("suicidal_ideation"))] ∧
    (keyword_based_detection [(("suicidal_ideation"), [("kill myself")])]
        [(("suicidal_ideation"), 10)] ("kill myself and kill myself")).score = 10 := by
  refine ⟨by decide, by decide, by decide⟩
